import Mathlib

/-!
Shallow embedding of the course-manager backend (Express + Mongoose app).
The canonical source is `src/app.js`; near-duplicate drafts live in
`src/unnamed/part_000` and `src/unnamed/part_001`, and the Mongoose course
schema in `src/unnamed/part_002`.

Modelling conventions:
- Mongo ObjectIds are modelled as `String` (the handlers compare ids via
  `toString()`), so id equality is string equality.
- A Mongoose document collection is a `List` of records; `findById` is
  `List.find?` on the `_id` field and `save` replaces the document with the
  matching `_id` in place.
- A handler that can answer an HTTP error returns `Except ApiError α`; the
  4xx/5xx statuses of the source are mapped to the error taxonomy of the
  spec (400 validation -> ValidationError, 400 enrollment guard ->
  AlreadyEnrolled, 401 -> Unauthenticated, 403 -> Forbidden, 404 ->
  NotFound, 409 -> Conflict).
- JavaScript truthiness of an optional string field (`if (!x)`) is:
  present and non-empty.
-/

deriving instance DecidableEq for Except

namespace CourseManager

/-- Mongo ObjectId, compared via `toString()` in the handlers. -/
abbrev Oid := String

/-- Error taxonomy of the API, mapped from the HTTP statuses the handlers
send (see the module comment). -/
inductive ApiError where
  | NotFound
  | AlreadyEnrolled
  | NotEnrolled
  | Forbidden
  | Unauthenticated
  | Conflict
  | ValidationError (msg : String)
  | InternalError
deriving DecidableEq, Repr

/-- A course document, after the Mongoose schema in
`src/unnamed/part_002` (courseSchema): `courseId`, `courseName`,
`courseDescription?`, `instructor`, `dayOfWeek?`, `timeOfClass?`,
`creditHours?`, `subjectArea?`, `owner`, `enrolledUsers[]`, plus the
Mongo-assigned `_id`. -/
structure Course where
  _id : Oid
  courseId : String
  courseName : String
  courseDescription : Option String
  instructor : String
  dayOfWeek : Option String
  timeOfClass : Option String
  creditHours : Option Nat
  subjectArea : Option String
  owner : Oid
  enrolledUsers : List Oid
deriving DecidableEq, Repr

/-- A user document: `_id`, `username`, `password`, `role`. -/
structure User where
  _id : Oid
  username : String
  password : String
  role : String
deriving DecidableEq, Repr

/-- The identity decoded out of the JWT: the handlers read
`req.user._id`, `req.user.username`, `req.user.role` (the fields signed
into the token by `POST /auth`). -/
structure Credential where
  subjectId : Oid
  username : String
  role : String
deriving DecidableEq, Repr

/-- The credential slot of an incoming request: no token, a token that
fails verification, or a verified token carrying a credential. -/
inductive TokenState where
  | missing
  | invalid
  | valid (cred : Credential)
deriving DecidableEq, Repr

/-- Modelled from the spec: `models/auth` is required by `src/app.js` but
its source is not in the repository snapshot. Per spec section 4.1/4.2 and
the error-handling design, `authenticateToken` rejects a missing,
malformed, unsigned or expired credential with `Unauthenticated` before
any authorization gate runs, and otherwise exposes the decoded
credential as `req.user`. -/
def authenticateToken : TokenState → Except ApiError Credential
  | .valid cred => .ok cred
  | _ => .error .Unauthenticated

/-- Modelled from the spec: `models/auth` is not in the snapshot. Per the
spec's policy table, the role gate `authorizeTeachersOnly` passes iff the
credential's role equals "teacher", failing with `Forbidden` otherwise. -/
def authorizeTeachersOnly (cred : Credential) : Except ApiError Unit :=
  if cred.role = "teacher" then .ok () else .error .Forbidden

/-- `Course.findById` over the collection: first document whose `_id`
matches. -/
def findById (db : List Course) (cid : Oid) : Option Course :=
  db.find? (fun c => c._id == cid)

/-- `course.save()`: persist the in-memory document, replacing the stored
document with the same `_id`. -/
def saveCourse (db : List Course) (c : Course) : List Course :=
  db.map (fun x => if x._id == c._id then c else x)

/-- `course.deleteOne()`: remove the document with this `_id`. -/
def deleteCourse (db : List Course) (c : Course) : List Course :=
  db.filter (fun x => !(x._id == c._id))

/-- The membership test of the enroll handler in `src/app.js` (lines
246-250): `course.enrolledUsers.some(id => id.toString() ===
req.user._id.toString())`. -/
def isEnrolled (c : Course) (u : Oid) : Bool :=
  c.enrolledUsers.any (fun i => i == u)

/-- Core of `POST /courses/:id/enroll` in `src/app.js` once the course is
fetched: reject with 400 "User already enrolled in this course" when the
membership test passes, else push the caller's id and save. -/
def enroll (c : Course) (u : Oid) : Except ApiError Course :=
  if isEnrolled c u then
    .error .AlreadyEnrolled
  else
    .ok { c with enrolledUsers := c.enrolledUsers ++ [u] }

/-- The full `POST /courses/:id/enroll` route of `src/app.js` (lines
241-263): `authenticateToken`, then `findById` (404 when absent), then
the membership guard, push and `save`. Returns the response and the
persisted collection. -/
def enrollRoute (tok : TokenState) (db : List Course) (cid : Oid) :
    Except ApiError Unit × List Course :=
  match authenticateToken tok with
  | .error e => (.error e, db)
  | .ok cred =>
    match findById db cid with
    | none => (.error .NotFound, db)
    | some course =>
      match enroll course cred.subjectId with
      | .error e => (.error e, db)
      | .ok updated => (.ok (), saveCourse db updated)

/-- The full `POST /courses/:id/drop` route of `src/app.js` (lines
266-281): `authenticateToken`, then `findById` (404 when absent), then
unconditionally filter the caller's id out of `enrolledUsers` and `save`;
it answers "Successfully dropped the course" whether or not the caller
was enrolled. -/
def dropRoute (tok : TokenState) (db : List Course) (cid : Oid) :
    Except ApiError Unit × List Course :=
  match authenticateToken tok with
  | .error e => (.error e, db)
  | .ok cred =>
    match findById db cid with
    | none => (.error .NotFound, db)
    | some course =>
      let updated :=
        { course with
          enrolledUsers :=
            course.enrolledUsers.filter (fun i => !(i == cred.subjectId)) }
      (.ok (), saveCourse db updated)

/-- The `POST /courses/:id/drop` route of the draft
`src/unnamed/part_001` (lines 228-248), which first rejects a caller who
is not enrolled with 400 "User not enrolled in this course". (The draft's
membership test uses `includes`; membership is modelled by id equality as
in the canonical file.) -/
def dropRouteDraft (tok : TokenState) (db : List Course) (cid : Oid) :
    Except ApiError Unit × List Course :=
  match authenticateToken tok with
  | .error e => (.error e, db)
  | .ok cred =>
    match findById db cid with
    | none => (.error .NotFound, db)
    | some course =>
      if !(isEnrolled course cred.subjectId) then
        (.error .NotEnrolled, db)
      else
        let updated :=
          { course with
            enrolledUsers :=
              course.enrolledUsers.filter (fun i => !(i == cred.subjectId)) }
        (.ok (), saveCourse db updated)

/-- `GET /courses/:id` in `src/app.js` (lines 178-187): no authentication
middleware is installed on this route; the handler ignores any credential
the request carries, looks the course up, and answers 404 "Course not
found" or the course. -/
def getCourseByIdRoute (_tok : TokenState) (db : List Course) (cid : Oid) :
    Except ApiError Course :=
  match findById db cid with
  | none => .error .NotFound
  | some course => .ok course

/-- `GET /courses/:id` in the draft `src/unnamed/part_000` (lines
200-208): the route carries `authenticateToken`, so an unauthenticated
request is rejected before the lookup. -/
def getCourseByIdRouteDraft (tok : TokenState) (db : List Course)
    (cid : Oid) : Except ApiError Course :=
  match authenticateToken tok with
  | .error e => .error e
  | .ok _ =>
    match findById db cid with
    | none => .error .NotFound
    | some course => .ok course

/-- The JSON body of `PUT /courses/:id`: each schema field may be present
or absent; `Object.assign` copies every present field onto the document,
with no whitelist, so `owner` and `enrolledUsers` are assignable too. -/
structure UpdateBody where
  courseId : Option String := none
  courseName : Option String := none
  courseDescription : Option String := none
  instructor : Option String := none
  dayOfWeek : Option String := none
  timeOfClass : Option String := none
  creditHours : Option Nat := none
  subjectArea : Option String := none
  owner : Option Oid := none
  enrolledUsers : Option (List Oid) := none
deriving DecidableEq, Repr

/-- `Object.assign(course, req.body)`: every field present in the body
overwrites the corresponding document field; absent fields are left
alone. -/
def objectAssign (c : Course) (b : UpdateBody) : Course :=
  { _id := c._id
    courseId := b.courseId.getD c.courseId
    courseName := b.courseName.getD c.courseName
    courseDescription :=
      match b.courseDescription with
      | some v => some v
      | none => c.courseDescription
    instructor := b.instructor.getD c.instructor
    dayOfWeek :=
      match b.dayOfWeek with
      | some v => some v
      | none => c.dayOfWeek
    timeOfClass :=
      match b.timeOfClass with
      | some v => some v
      | none => c.timeOfClass
    creditHours :=
      match b.creditHours with
      | some v => some v
      | none => c.creditHours
    subjectArea :=
      match b.subjectArea with
      | some v => some v
      | none => c.subjectArea
    owner := b.owner.getD c.owner
    enrolledUsers := b.enrolledUsers.getD c.enrolledUsers }

/-- `PUT /courses/:id` in `src/app.js` (lines 190-213): `authenticateToken`,
`authorizeTeachersOnly`, `findById` (404 when absent), the ownership check
`course.owner.toString() !== req.user._id.toString()` (403 when it fails),
then `Object.assign(course, req.body)` and `save`. -/
def updateCourseRoute (tok : TokenState) (db : List Course) (cid : Oid)
    (body : UpdateBody) : Except ApiError Course × List Course :=
  match authenticateToken tok with
  | .error e => (.error e, db)
  | .ok cred =>
    match authorizeTeachersOnly cred with
    | .error e => (.error e, db)
    | .ok _ =>
      match findById db cid with
      | none => (.error .NotFound, db)
      | some course =>
        if course.owner ≠ cred.subjectId then (.error .Forbidden, db)
        else
          let updated := objectAssign course body
          (.ok updated, saveCourse db updated)

/-- `DELETE /courses/:id` in `src/app.js` (lines 216-238): same gate chain
as the update route, then `deleteOne`. -/
def deleteCourseRoute (tok : TokenState) (db : List Course) (cid : Oid) :
    Except ApiError Unit × List Course :=
  match authenticateToken tok with
  | .error e => (.error e, db)
  | .ok cred =>
    match authorizeTeachersOnly cred with
    | .error e => (.error e, db)
    | .ok _ =>
      match findById db cid with
      | none => (.error .NotFound, db)
      | some course =>
        if course.owner ≠ cred.subjectId then (.error .Forbidden, db)
        else (.ok (), deleteCourse db course)

/-- JavaScript truthiness of an optional string request field:
`if (!x)` fires when the field is absent or the empty string. -/
def strTruthy : Option String → Bool
  | none => false
  | some s => !(s == "")

/-- `POST /users` in `src/app.js` (lines 98-122): reject when username,
password or role is falsy; clamp the role to "student" unless it is in
`allowedRoles = ["student", "teacher"]`; save, with a duplicate username
(Mongo error 11000) answered 409. The Mongo-assigned id of the new
document is a parameter. Returns the created document (the HTTP response
is just `{message: "User created"}` with status 201). -/
def registerUser (newId : Oid) (username? password? role? : Option String)
    (db : List User) : Except ApiError User :=
  if !(strTruthy username?) || !(strTruthy password?) || !(strTruthy role?)
  then
    .error (.ValidationError "Missing username, password, or role")
  else
    let username := username?.getD ""
    let password := password?.getD ""
    let role := role?.getD ""
    let safeRole :=
      if role == "student" || role == "teacher" then role else "student"
    if db.any (fun u => u.username == username) then
      .error .Conflict
    else
      .ok { _id := newId, username := username, password := password,
            role := safeRole }

/-- `POST /users` in the draft `src/unnamed/part_000` (lines 100-137):
instead of clamping, a role outside `allowedRoles` is rejected with 400
"Invalid role"; the stored password is `bcrypt.hash(password, 10)`,
modelled by an abstract salted hash parameter. -/
def registerUserDraft (hash : String → String) (newId : Oid)
    (username? password? role? : Option String) (db : List User) :
    Except ApiError User :=
  if !(strTruthy username?) || !(strTruthy password?) || !(strTruthy role?)
  then
    .error (.ValidationError "Missing username, password, or role")
  else
    let username := username?.getD ""
    let password := password?.getD ""
    let role := role?.getD ""
    if !(role == "student" || role == "teacher") then
      .error (.ValidationError "Invalid role")
    else if db.any (fun u => u.username == username) then
      .error .Conflict
    else
      .ok { _id := newId, username := username, password := hash password,
            role := role }

/-- The body of the `POST /auth` success response in `src/app.js` (lines
143-149): `{username, role, token, _id, auth: 1}`. The token is the
signed credential `{_id, username, role}`; no password field exists in
the response shape. -/
structure LoginResponse where
  username : String
  role : String
  token : Credential
  _id : Oid
  auth : Nat
deriving DecidableEq, Repr

/-- `POST /auth` in `src/app.js` (lines 125-154): reject falsy fields with
400; `User.findOne({username})`; `if (!user || user.password !== password)`
answer 401; else sign `{_id, username, role}` and answer the login
payload. The stored password is compared to the submitted one directly. -/
def login (username? password? : Option String) (db : List User) :
    Except ApiError LoginResponse :=
  if !(strTruthy username?) || !(strTruthy password?) then
    .error (.ValidationError "Missing username or password")
  else
    match db.find? (fun u => u.username == username?.getD "") with
    | none => .error .Unauthenticated
    | some user =>
      if user.password ≠ password?.getD "" then .error .Unauthenticated
      else
        .ok { username := user.username
              role := user.role
              token := { subjectId := user._id, username := user.username,
                         role := user.role }
              _id := user._id
              auth := 1 }

/-- The hex test of the owner filter: `/^[0-9a-fA-F]{24}$/.test(owner)`. -/
def isHex24 (s : String) : Bool :=
  s.length == 24 &&
    s.data.all (fun c =>
      (('0' ≤ c && c ≤ '9') || ('a' ≤ c && c ≤ 'f')
        || ('A' ≤ c && c ≤ 'F')))

/-- The Mongo query object built by `GET /courses` in `src/app.js`:
an optional `enrolledUsers` membership condition, an optional `owner`
equality condition, and an optional `$or` condition over `courseId` and
`courseName` holding the case-insensitive search pattern. -/
structure CourseQuery where
  enrolledUsers : Option Oid
  owner : Option Oid
  searchOr : Option String
deriving DecidableEq, Repr

/-- Query construction of `GET /courses` in `src/app.js` (lines 68-89):
`if (enrolled === "true")` add the caller's id to `query.enrolledUsers`;
`else if (owner)` validate the 24-hex shape (400 "Invalid owner ID" when
it fails) and add `query.owner`; `if (search)` add the `$or` regex pair.
The error return happens before `Course.find` runs. -/
def buildCoursesQuery (userId : Oid)
    (enrolled owner search : Option String) :
    Except ApiError CourseQuery :=
  let base : CourseQuery :=
    { enrolledUsers := none, owner := none, searchOr := none }
  let afterOwner : Except ApiError CourseQuery :=
    if enrolled == some "true" then
      .ok { base with enrolledUsers := some userId }
    else if strTruthy owner then
      if !(isHex24 (owner.getD "")) then
        .error (.ValidationError "Invalid owner ID")
      else
        .ok { base with owner := some (owner.getD "") }
    else
      .ok base
  match afterOwner with
  | .error e => .error e
  | .ok q =>
    if strTruthy search then .ok { q with searchOr := search }
    else .ok q

/-- Is `pat` equal to some leading segment of `l`? -/
def leadsWith : List Char → List Char → Bool
  | [], _ => true
  | _ :: _, [] => false
  | p :: ps, c :: cs => p == c && leadsWith ps cs

/-- Is `pat` a contiguous segment of `l`? -/
def hasSeg (pat : List Char) : List Char → Bool
  | [] => leadsWith pat []
  | c :: cs => leadsWith pat (c :: cs) || hasSeg pat cs

/-- Case-insensitive substring test: the semantics of
`{$regex: pat, $options: "i"}` on a field, for a pattern holding no regex
metacharacters (the search text is passed to the engine verbatim). -/
def ciContains (hay pat : String) : Bool :=
  hasSeg pat.toLower.data hay.toLower.data

/-- Mongo's evaluation of the built query on one course document: every
present condition must hold (`enrolledUsers: id` is array membership;
`$or` holds when either regex matches). -/
def matchesQuery (q : CourseQuery) (c : Course) : Bool :=
  (match q.enrolledUsers with
   | none => true
   | some u => c.enrolledUsers.any (fun i => i == u)) &&
  (match q.owner with
   | none => true
   | some o => c.owner == o) &&
  (match q.searchOr with
   | none => true
   | some s => ciContains c.courseId s || ciContains c.courseName s)

/-- `Course.find(query)`: all documents matching the query. -/
def findCourses (q : CourseQuery) (db : List Course) : List Course :=
  db.filter (matchesQuery q)

/-- The full `GET /courses` route of `src/app.js` (lines 68-95):
`authenticateToken`, build the query from the `enrolled`, `owner`,
`search` parameters, and run `Course.find` only when construction
succeeded. -/
def getCoursesRoute (tok : TokenState)
    (enrolled owner search : Option String) (db : List Course) :
    Except ApiError (List Course) :=
  match authenticateToken tok with
  | .error e => .error e
  | .ok cred =>
    match buildCoursesQuery cred.subjectId enrolled owner search with
    | .error e => .error e
    | .ok q => .ok (findCourses q db)

/-!
Interleaving model of the enroll handler, for the concurrency claim. The
handler body of `POST /courses/:id/enroll` performs two persistence
steps: `Course.findById` (read the stored document into handler-local
memory) and `course.save()` (write the handler-local document back,
replacing the stored one). Between the two, the membership check and the
`push` run on the local copy only. No version token, transaction or
atomic update operator guards the write. A handler instance is therefore
a two-step program over the shared stored document.
-/

/-- The per-request state of one in-flight enroll handler: which
persistence step comes next (0 = the read, 1 = check-push-write, 2 =
finished), the local copy of the document, and the response sent. -/
structure EnrollProc where
  pc : Nat
  localCourse : Option Course
  response : Option (Except ApiError Unit)
deriving Repr

/-- A handler instance that has not run yet. -/
def EnrollProc.start : EnrollProc :=
  { pc := 0, localCourse := none, response := none }

/-- One persistence step of the enroll handler for caller `u` against the
shared stored document `db`: step 0 reads the document; step 1 runs the
membership check on the local copy and either answers 400 or pushes `u`
locally and writes the local copy back with `save`. -/
def enrollStep (u : Oid) (db : Course) (p : EnrollProc) :
    Course × EnrollProc :=
  match p.pc with
  | 0 => (db, { pc := 1, localCourse := some db, response := none })
  | 1 =>
    match p.localCourse with
    | none => (db, p)
    | some c =>
      if isEnrolled c u then
        (db, { pc := 2, localCourse := some c,
               response := some (.error .AlreadyEnrolled) })
      else
        let pushed := { c with enrolledUsers := c.enrolledUsers ++ [u] }
        (pushed, { pc := 2, localCourse := some pushed,
                   response := some (.ok ()) })
  | _ => (db, p)

/-- Run two concurrent enroll handler instances (caller `u1` and caller
`u2`) under a schedule: `true` steps the first handler, `false` the
second. Returns the stored document and both handler states. -/
def runEnrollPair (u1 u2 : Oid) :
    List Bool → Course × EnrollProc × EnrollProc →
    Course × EnrollProc × EnrollProc
  | [], s => s
  | b :: rest, (db, p1, p2) =>
    if b then
      let (db', p1') := enrollStep u1 db p1
      runEnrollPair u1 u2 rest (db', p1', p2)
    else
      let (db', p2') := enrollStep u2 db p2
      runEnrollPair u1 u2 rest (db', p1, p2')

/-!
Concrete documents used to instantiate the theorems.
-/

/-- A teacher credential, subject id "t1". -/
def teacherCred : Credential :=
  { subjectId := "t1", username := "prof", role := "teacher" }

/-- A second teacher credential, subject id "t2". -/
def teacherCred2 : Credential :=
  { subjectId := "t2", username := "prof2", role := "teacher" }

/-- A student credential, subject id "s1". -/
def studentCred : Credential :=
  { subjectId := "s1", username := "alice", role := "student" }

/-- A stored course owned by "t1" with an empty enrollment set. -/
def courseEx : Course :=
  { _id := "c1", courseId := "CS101", courseName := "Intro",
    courseDescription := none, instructor := "prof", dayOfWeek := none,
    timeOfClass := none, creditHours := none, subjectArea := none,
    owner := "t1", enrolledUsers := [] }

/-!
Helper lemmas about the persistence model.
-/

/-- A document found by `findById` carries the looked-up `_id`. -/
theorem findById_id (db : List Course) (cid : Oid) (c : Course)
    (h : findById db cid = some c) : c._id = cid := by
  unfold findById at h
  have hp := List.find?_some h
  simpa using hp

/-- Saving a document whose `_id` is the one `findById` found makes the
lookup return the saved document. -/
theorem findById_saveCourse (db : List Course) (c c' : Course) (cid : Oid)
    (h : findById db cid = some c) (hid : c'._id = c._id) :
    findById (saveCourse db c') cid = some c' := by
  have hcid : c._id = cid := findById_id db cid c h
  unfold findById saveCourse
  rw [List.find?_map]
  have hpf :
      ((fun y => y._id == cid) ∘
        (fun x => if x._id == c'._id then c' else x))
      = fun x => x._id == cid := by
    funext x
    by_cases hx : x._id = c'._id
    · simp [Function.comp, hx, hid, hcid]
    · simp [Function.comp, hx]
  rw [hpf]
  unfold findById at h
  rw [h]
  rw [Option.map_some']
  rw [hid]
  simp only [beq_self_eq_true, if_true]

/-- The membership test of the handlers agrees with list membership. -/
theorem isEnrolled_iff (c : Course) (u : Oid) :
    isEnrolled c u = true ↔ u ∈ c.enrolledUsers := by
  simp [isEnrolled, List.any_eq_true]

/-- When `_id`s are unique in the collection, saving back the very
document that was found leaves the collection unchanged. -/
theorem saveCourse_self (db : List Course) (cid : Oid) (c : Course)
    (hnd : (db.map Course._id).Nodup)
    (hfind : findById db cid = some c) :
    saveCourse db c = db := by
  unfold findById at hfind
  have hmem : c ∈ db := List.mem_of_find?_eq_some hfind
  have hcongr : ∀ x ∈ db, (if x._id == c._id then c else x) = x := by
    intro x hx
    by_cases hxe : x._id = c._id
    · have hxc : x = c :=
        List.inj_on_of_nodup_map hnd hx hmem hxe
      simp [hxe, hxc]
    · simp [hxe]
  unfold saveCourse
  calc db.map (fun x => if x._id == c._id then c else x)
      = db.map id := List.map_congr_left (by simpa using hcongr)
    _ = db := List.map_id db

/-- C1: for every stored course the caller is not yet a member of, the
enroll route succeeds and the stored course then holds the caller exactly
once; immediately repeating the enroll fails with `AlreadyEnrolled` and
leaves the stored collection exactly as it was. -/
theorem enroll_twice_second_fails (cred : Credential) (db : List Course)
    (cid : Oid) (c : Course)
    (hfind : findById db cid = some c)
    (hnot : cred.subjectId ∉ c.enrolledUsers) :
    ∃ db' c',
      enrollRoute (.valid cred) db cid = (.ok (), db') ∧
      findById db' cid = some c' ∧
      c'.enrolledUsers.count cred.subjectId = 1 ∧
      enrollRoute (.valid cred) db' cid = (.error .AlreadyEnrolled, db') := by
  have henr : isEnrolled c cred.subjectId = false := by
    cases he : isEnrolled c cred.subjectId
    · rfl
    · exact absurd ((isEnrolled_iff c _).mp he) hnot
  set c' : Course :=
    { c with enrolledUsers := c.enrolledUsers ++ [cred.subjectId] } with hc'
  have hfind' : findById (saveCourse db c') cid = some c' :=
    findById_saveCourse db c c' cid hfind rfl
  have hmem : cred.subjectId ∈ c'.enrolledUsers := by
    simp [hc']
  have henr' : isEnrolled c' cred.subjectId = true :=
    (isEnrolled_iff c' _).mpr hmem
  refine ⟨saveCourse db c', c', ?_, hfind', ?_, ?_⟩
  · simp [enrollRoute, authenticateToken, hfind, enroll, henr, hc']
  · have h0 : c.enrolledUsers.count cred.subjectId = 0 :=
      List.count_eq_zero.mpr hnot
    simp [hc', List.count_append, h0]
  · simp [enrollRoute, authenticateToken, hfind', enroll, henr']

/-- C1 witness: the student "s1" enrolling twice in the stored course
"c1" with an empty enrollment set. -/
theorem enroll_twice_second_fails_spot :
    ∃ db' c',
      enrollRoute (.valid studentCred) [courseEx] "c1" = (.ok (), db') ∧
      findById db' "c1" = some c' ∧
      c'.enrolledUsers.count studentCred.subjectId = 1 ∧
      enrollRoute (.valid studentCred) db' "c1" =
        (.error .AlreadyEnrolled, db') :=
  enroll_twice_second_fails studentCred [courseEx] "c1" courseEx
    (by simp [findById, courseEx]) (by simp [courseEx, studentCred])

/-- C2 counterexample: the student "s1" is not a member of the stored
course "c1", yet the drop route of `src/app.js` answers success with the
collection untouched instead of failing with `NotEnrolled`. -/
theorem dropRoute_not_enrolled_cex :
    dropRoute (.valid studentCred) [courseEx] "c1" = (.ok (), [courseEx]) ∧
    (dropRoute (.valid studentCred) [courseEx] "c1").1 ≠
      .error .NotEnrolled := by
  constructor
  · rfl
  · decide

/-- C2 amended: for a stored course the caller is not a member of, the
drop route of `src/app.js` succeeds as a no-op, leaving the collection
exactly as it was (the draft `src/unnamed/part_001` instead rejects with
`NotEnrolled` without mutating); and in every case the drop route
succeeds and the caller is absent from the stored course afterwards. -/
theorem dropRoute_noop_success (cred : Credential) (db : List Course)
    (cid : Oid) (c : Course)
    (hnd : (db.map Course._id).Nodup)
    (hfind : findById db cid = some c) :
    (cred.subjectId ∉ c.enrolledUsers →
      dropRoute (.valid cred) db cid = (.ok (), db) ∧
      dropRouteDraft (.valid cred) db cid = (.error .NotEnrolled, db)) ∧
    (∃ db' c',
      dropRoute (.valid cred) db cid = (.ok (), db') ∧
      findById db' cid = some c' ∧
      cred.subjectId ∉ c'.enrolledUsers) := by
  set c' : Course :=
    { c with
      enrolledUsers :=
        c.enrolledUsers.filter (fun i => !(i == cred.subjectId)) } with hc'
  constructor
  · intro hnot
    have hfilter :
        c.enrolledUsers.filter (fun i => !(i == cred.subjectId))
          = c.enrolledUsers := by
      apply List.filter_eq_self.mpr
      intro a ha
      have : a ≠ cred.subjectId := fun he => hnot (he ▸ ha)
      simpa using this
    have hcc : c' = c := by
      rw [hc', hfilter]
    have hsave : saveCourse db c = db := saveCourse_self db cid c hnd hfind
    have henr : isEnrolled c cred.subjectId = false := by
      cases he : isEnrolled c cred.subjectId
      · rfl
      · exact absurd ((isEnrolled_iff c _).mp he) hnot
    constructor
    · simp [dropRoute, authenticateToken, hfind, ← hc', hcc, hsave]
    · simp [dropRouteDraft, authenticateToken, hfind, henr]
  · refine ⟨saveCourse db c', c', ?_, ?_, ?_⟩
    · simp [dropRoute, authenticateToken, hfind, hc']
    · exact findById_saveCourse db c c' cid hfind rfl
    · intro hmem
      rw [hc'] at hmem
      have := (List.mem_filter.mp hmem).2
      simp at this

/-- C2 amended witness: the student "s1" dropping the course "c1" they
are not a member of. -/
theorem dropRoute_noop_success_spot :
    (studentCred.subjectId ∉ courseEx.enrolledUsers →
      dropRoute (.valid studentCred) [courseEx] "c1" =
        (.ok (), [courseEx]) ∧
      dropRouteDraft (.valid studentCred) [courseEx] "c1" =
        (.error .NotEnrolled, [courseEx])) ∧
    (∃ db' c',
      dropRoute (.valid studentCred) [courseEx] "c1" = (.ok (), db') ∧
      findById db' "c1" = some c' ∧
      studentCred.subjectId ∉ c'.enrolledUsers) :=
  dropRoute_noop_success studentCred [courseEx] "c1" courseEx
    (by simp [courseEx]) (by simp [findById, courseEx])

/-- C3: a caller holding a valid teacher-role credential who is not the
owner of an existing course gets `Forbidden` from both the update route
and the delete route, and the stored collection is returned unchanged. -/
theorem update_delete_non_owner_forbidden (cred : Credential)
    (db : List Course) (cid : Oid) (c : Course) (body : UpdateBody)
    (hrole : cred.role = "teacher")
    (hfind : findById db cid = some c)
    (hown : c.owner ≠ cred.subjectId) :
    updateCourseRoute (.valid cred) db cid body = (.error .Forbidden, db) ∧
    deleteCourseRoute (.valid cred) db cid = (.error .Forbidden, db) := by
  constructor
  · simp [updateCourseRoute, authenticateToken, authorizeTeachersOnly,
      hrole, hfind, hown]
  · simp [deleteCourseRoute, authenticateToken, authorizeTeachersOnly,
      hrole, hfind, hown]

/-- C3 witness: teacher "t2" trying to update and delete the course "c1"
owned by teacher "t1". -/
theorem update_delete_non_owner_forbidden_spot :
    updateCourseRoute (.valid teacherCred2) [courseEx] "c1" {} =
      (.error .Forbidden, [courseEx]) ∧
    deleteCourseRoute (.valid teacherCred2) [courseEx] "c1" =
      (.error .Forbidden, [courseEx]) :=
  update_delete_non_owner_forbidden teacherCred2 [courseEx] "c1" courseEx {}
    rfl (by simp [findById, courseEx])
    (by simp [courseEx, teacherCred2])

/-- C4: the enroll handler is an unguarded fetch-then-save, so the
interleaving read1-read2-write1-write2 of two concurrent enrolls of "s1"
and "s2" into the stored course "c1" makes both handlers answer success
while the final stored enrollment set is only ["s2"]: caller "s1"'s
update is lost. Under the serialized schedule the same two calls leave
["s1", "s2"], so the loss is caused purely by the interleaving. -/
theorem enroll_lost_update_cex :
    (runEnrollPair "s1" "s2" [true, false, true, false]
        (courseEx, EnrollProc.start, EnrollProc.start)).2.1.response
      = some (.ok ()) ∧
    (runEnrollPair "s1" "s2" [true, false, true, false]
        (courseEx, EnrollProc.start, EnrollProc.start)).2.2.response
      = some (.ok ()) ∧
    (runEnrollPair "s1" "s2" [true, false, true, false]
        (courseEx, EnrollProc.start, EnrollProc.start)).1.enrolledUsers
      = ["s2"] ∧
    "s1" ∉ (runEnrollPair "s1" "s2" [true, false, true, false]
        (courseEx, EnrollProc.start, EnrollProc.start)).1.enrolledUsers ∧
    (runEnrollPair "s1" "s2" [true, true, false, false]
        (courseEx, EnrollProc.start, EnrollProc.start)).1.enrolledUsers
      = ["s1", "s2"] := by
  refine ⟨rfl, rfl, rfl, ?_, rfl⟩
  decide

/-- C5 counterexample: a request with no credential at all gets the
stored course "c1" back from the read-course-by-id route of
`src/app.js`, instead of being rejected with `Unauthenticated`. -/
theorem getCourseById_no_auth_cex :
    getCourseByIdRoute .missing [courseEx] "c1" = .ok courseEx ∧
    getCourseByIdRoute .missing [courseEx] "c1" ≠
      .error .Unauthenticated := by
  exact ⟨rfl, by decide⟩

/-- C5 amended: the read-course-by-id route of `src/app.js` requires no
identity: its answer does not depend on the request's credential, and an
unauthenticated request receives the course when it exists; only the
draft variant of `src/unnamed/part_000` rejects a missing or invalid
credential with `Unauthenticated` before the lookup. -/
theorem getCourseById_requires_no_identity (tok tok' : TokenState)
    (db : List Course) (cid : Oid) :
    getCourseByIdRoute tok db cid = getCourseByIdRoute tok' db cid ∧
    (∀ c, findById db cid = some c →
      getCourseByIdRoute .missing db cid = .ok c) ∧
    getCourseByIdRouteDraft .missing db cid = .error .Unauthenticated ∧
    getCourseByIdRouteDraft .invalid db cid = .error .Unauthenticated := by
  refine ⟨rfl, ?_, rfl, rfl⟩
  intro c h
  simp [getCourseByIdRoute, h]

/-- C5 amended witness: the unauthenticated read of the stored course
"c1" against both the canonical route and the draft route. -/
theorem getCourseById_requires_no_identity_spot :
    getCourseByIdRoute .missing [courseEx] "c1" =
      getCourseByIdRoute (.valid studentCred) [courseEx] "c1" ∧
    getCourseByIdRoute .missing [courseEx] "c1" = .ok courseEx ∧
    getCourseByIdRouteDraft .missing [courseEx] "c1" =
      .error .Unauthenticated :=
  have h := getCourseById_requires_no_identity .missing
    (.valid studentCred) [courseEx] "c1"
  ⟨h.1, h.2.1 courseEx (by simp [findById, courseEx]), h.2.2.1⟩

/-- C6 counterexample: registering "alice" with password "secret123"
through `src/app.js` persists the password field as the plaintext
"secret123" itself, and login answers success by comparing that stored
plaintext with the submitted one. -/
theorem plaintext_password_cex :
    registerUser "u1" (some "alice") (some "secret123") (some "student") []
      = .ok { _id := "u1", username := "alice", password := "secret123",
              role := "student" } ∧
    login (some "alice") (some "secret123")
        [{ _id := "u1", username := "alice", password := "secret123",
           role := "student" }]
      = .ok { username := "alice", role := "student",
              token := { subjectId := "u1", username := "alice",
                         role := "student" },
              _id := "u1", auth := 1 } :=
  ⟨rfl, rfl⟩

/-- C6 amended: `src/app.js` persists the submitted plaintext password
verbatim and login succeeds exactly when the stored plaintext equals the
submitted one, answering a payload holding only username, role, token and
id (no password field exists in the response shape); only the draft
`src/unnamed/part_000` stores the salted one-way hash of the password
instead. -/
theorem password_plaintext_persisted (newId : Oid)
    (un? pw? rl? : Option String) (db dbL : List User) (u v : User)
    (hreg : registerUser newId un? pw? rl? db = .ok u)
    (hfind : dbL.find? (fun x => x.username == un?.getD "") = some v) :
    u.password = pw?.getD "" ∧
    (v.password = pw?.getD "" →
      login un? pw? dbL = .ok
        { username := v.username, role := v.role,
          token := { subjectId := v._id, username := v.username,
                     role := v.role },
          _id := v._id, auth := 1 }) ∧
    (v.password ≠ pw?.getD "" →
      login un? pw? dbL = .error .Unauthenticated) ∧
    (∀ hash w, registerUserDraft hash newId un? pw? rl? db = .ok w →
      w.password = hash (pw?.getD "")) := by
  have hA : (!strTruthy un? || !strTruthy pw? || !strTruthy rl?) = false := by
    by_contra h
    have h' : (!strTruthy un? || !strTruthy pw? || !strTruthy rl?) = true := by
      revert h
      cases (!strTruthy un? || !strTruthy pw? || !strTruthy rl?) <;> simp
    unfold registerUser at hreg
    rw [if_pos h'] at hreg
    cases hreg
  have hun : strTruthy un? = true := by
    revert hA
    cases hu : strTruthy un? <;> simp
  have hpw : strTruthy pw? = true := by
    revert hA
    cases hp : strTruthy pw? <;> simp
  refine ⟨?_, ?_, ?_, ?_⟩
  · simp only [registerUser, hA, Bool.false_eq_true, if_false] at hreg
    split at hreg
    · cases hreg
    · simp only [Except.ok.injEq] at hreg
      subst hreg
      rfl
  · intro hvpw
    simp only [login, hun, hpw, Bool.not_true, Bool.or_self,
      Bool.false_eq_true, if_false, hfind]
    rw [if_neg (by simp [hvpw])]
  · intro hvpw
    simp only [login, hun, hpw, Bool.not_true, Bool.or_self,
      Bool.false_eq_true, if_false, hfind]
    rw [if_pos hvpw]
  · intro hash w hw
    simp only [registerUserDraft, hA, Bool.false_eq_true, if_false] at hw
    split at hw
    · cases hw
    · split at hw
      · cases hw
      · simp only [Except.ok.injEq] at hw
        subst hw
        rfl

/-- C6 amended witness: registering and logging in "alice" with
password "secret123" against the single-user store. -/
theorem password_plaintext_persisted_spot :
    ({ _id := "u1", username := "alice", password := "secret123",
       role := "student" } : User).password = "secret123" ∧
    login (some "alice") (some "secret123")
        [{ _id := "u1", username := "alice", password := "secret123",
           role := "student" }]
      = .ok { username := "alice", role := "student",
              token := { subjectId := "u1", username := "alice",
                         role := "student" },
              _id := "u1", auth := 1 } :=
  have h := password_plaintext_persisted "u1" (some "alice")
    (some "secret123") (some "student") []
    [{ _id := "u1", username := "alice", password := "secret123",
       role := "student" }]
    { _id := "u1", username := "alice", password := "secret123",
      role := "student" }
    { _id := "u1", username := "alice", password := "secret123",
      role := "student" }
    rfl rfl
  ⟨h.1, h.2.1 rfl⟩

/-- C7 counterexample: "zzz" is not a 24-hex identifier, yet a list
request carrying `enrolled=true` together with `owner=zzz` is answered
from persistence (here an empty result over the empty collection)
instead of failing with `ValidationError`: the owner check sits in the
`else` branch of the `enrolled === "true"` test. -/
theorem owner_validation_bypassed_cex :
    isHex24 "zzz" = false ∧
    getCoursesRoute (.valid studentCred) (some "true") (some "zzz") none []
      = .ok [] ∧
    getCoursesRoute (.valid studentCred) (some "true") (some "zzz") none []
      ≠ .error (.ValidationError "Invalid owner ID") := by
  refine ⟨rfl, rfl, by decide⟩

/-- C7 amended: when the `enrolled=true` filter is not supplied, a
supplied non-empty owner parameter that fails the 24-hex shape makes the
list route fail with `ValidationError` for every stored collection (so
before any persistence query); when `enrolled=true` is supplied the owner
parameter is ignored entirely, and an empty owner string is ignored. -/
theorem owner_validation_before_find (cred : Credential)
    (enrolled owner search : Option String) (db : List Course)
    (hen : enrolled ≠ some "true")
    (how : strTruthy owner = true)
    (hhex : isHex24 (owner.getD "") = false) :
    getCoursesRoute (.valid cred) enrolled owner search db
      = .error (.ValidationError "Invalid owner ID") := by
  have henb : (enrolled == some "true") = false := by
    simp [hen]
  simp [getCoursesRoute, authenticateToken, buildCoursesQuery,
    henb, how, hhex]

/-- C7 amended witness: `owner=zzz` with no `enrolled` parameter fails
validation over the one-course collection. -/
theorem owner_validation_before_find_spot :
    getCoursesRoute (.valid studentCred) none (some "zzz") none [courseEx]
      = .error (.ValidationError "Invalid owner ID") :=
  owner_validation_before_find studentCred none (some "zzz") none
    [courseEx] (by decide) rfl rfl

/-- C8 counterexample: a register request with username and password
present but the role field absent is answered with the 400 missing-field
validation error by `src/app.js`, not with a 201 creation defaulted to
role "student": the handler requires a truthy role before the
`allowedRoles` clamp runs. -/
theorem register_role_absent_cex :
    registerUser "u2" (some "bob") (some "pw123") none []
      = .error (.ValidationError "Missing username, password, or role") :=
  rfl

/-- C8 amended: with username and password present, the username unique,
and the role field present and non-empty but outside {student, teacher},
the user is created with role "student" (the 201 path); when the role
field is absent, the request instead fails with the missing-field
`ValidationError`. -/
theorem register_invalid_role_defaults_student (newId : Oid)
    (un pw rl : String) (db : List User)
    (hun : un ≠ "") (hpw : pw ≠ "") (hrl : rl ≠ "")
    (hinv1 : rl ≠ "student") (hinv2 : rl ≠ "teacher")
    (huniq : db.any (fun u => u.username == un) = false) :
    registerUser newId (some un) (some pw) (some rl) db
      = .ok { _id := newId, username := un, password := pw,
              role := "student" } ∧
    registerUser newId (some un) (some pw) none db
      = .error (.ValidationError "Missing username, password, or role") := by
  have h1 : (rl == "student") = false := by simp [hinv1]
  have h2 : (rl == "teacher") = false := by simp [hinv2]
  constructor
  · simp [registerUser, strTruthy, hun, hpw, hrl, h1, h2, huniq]
  · simp [registerUser, strTruthy]

/-- C8 amended witness: registering "bob" with the unknown role "admin"
into the empty store, and with the role field absent. -/
theorem register_invalid_role_defaults_student_spot :
    registerUser "u2" (some "bob") (some "pw123") (some "admin") []
      = .ok { _id := "u2", username := "bob", password := "pw123",
              role := "student" } ∧
    registerUser "u2" (some "bob") (some "pw123") none []
      = .error (.ValidationError "Missing username, password, or role") :=
  register_invalid_role_defaults_student "u2" "bob" "pw123" "admin" []
    (by decide) (by decide) (by decide) (by decide) (by decide) rfl

/-- Modelled from the spec (section 4.4), for comparison with the query
the code builds: the per-course predicate the spec describes — when
`enrolled=true` is supplied the caller must be a member; only otherwise a
supplied owner filter requires owner equality; a supplied search filter
additionally (logical AND) requires the search text to be a
case-insensitive substring of the course code OR the course name. -/
def specCourseFilter (callerId : Oid)
    (enrolled owner search : Option String) (c : Course) : Bool :=
  (if enrolled == some "true" then
    c.enrolledUsers.any (fun i => i == callerId)
   else if strTruthy owner then c.owner == owner.getD ""
   else true) &&
  (if strTruthy search then
    ciContains c.courseId (search.getD "")
      || ciContains c.courseName (search.getD "")
   else true)

/-- C9: whenever the list route answers successfully, the answer is
exactly the stored courses satisfying the spec's filter conjunction:
search is a case-insensitive substring match against course code OR
course name, the owner filter is evaluated only when the enrolled filter
is absent, and search applies on top of either. -/
theorem getCourses_filter_semantics (cred : Credential)
    (enrolled owner search : Option String) (db out : List Course)
    (hok : getCoursesRoute (.valid cred) enrolled owner search db
      = .ok out) :
    out = db.filter
      (specCourseFilter cred.subjectId enrolled owner search) := by
  unfold getCoursesRoute at hok
  simp only [authenticateToken] at hok
  unfold buildCoursesQuery at hok
  by_cases he : (enrolled == some "true") = true
  · by_cases hs : strTruthy search = true
    · simp only [he, hs, if_true] at hok
      simp only [Except.ok.injEq] at hok
      rw [← hok]
      refine List.filter_congr ?_
      intro c _
      cases search with
      | none => simp [strTruthy] at hs
      | some s => simp [matchesQuery, specCourseFilter, he, hs]
    · simp only [he, hs, if_true, Bool.false_eq_true, if_false] at hok
      simp only [Except.ok.injEq] at hok
      rw [← hok]
      refine List.filter_congr ?_
      intro c _
      simp [matchesQuery, specCourseFilter, he, hs]
  · by_cases ho : strTruthy owner = true
    · by_cases hx : isHex24 (owner.getD "") = true
      · by_cases hs : strTruthy search = true
        · simp only [he, ho, hx, hs, Bool.false_eq_true, if_false,
            Bool.not_true, if_true] at hok
          simp only [Except.ok.injEq] at hok
          rw [← hok]
          refine List.filter_congr ?_
          intro c _
          cases search with
          | none => simp [strTruthy] at hs
          | some s => simp [matchesQuery, specCourseFilter, he, ho, hs]
        · simp only [he, ho, hx, hs, Bool.false_eq_true, if_false,
            Bool.not_true, if_true] at hok
          simp only [Except.ok.injEq] at hok
          rw [← hok]
          refine List.filter_congr ?_
          intro c _
          simp [matchesQuery, specCourseFilter, he, ho, hs]
      · simp only [he, ho, hx, Bool.false_eq_true, if_false,
          Bool.not_false, if_true] at hok
        cases hok
    · by_cases hs : strTruthy search = true
      · simp only [he, ho, hs, Bool.false_eq_true, if_false, if_true]
          at hok
        simp only [Except.ok.injEq] at hok
        rw [← hok]
        refine List.filter_congr ?_
        intro c _
        cases search with
        | none => simp [strTruthy] at hs
        | some s => simp [matchesQuery, specCourseFilter, he, ho, hs]
      · simp only [he, ho, hs, Bool.false_eq_true, if_false] at hok
        simp only [Except.ok.injEq] at hok
        rw [← hok]
        refine List.filter_congr ?_
        intro c _
        simp [matchesQuery, specCourseFilter, he, ho, hs]

/-- C9 witness: a search for "cs" with no other filter over a two-course
collection returns exactly the filtered set. -/
theorem getCourses_filter_semantics_spot :
    (findCourses { enrolledUsers := none, owner := none,
                   searchOr := some "cs" } [courseEx]
      = [courseEx].filter
          (specCourseFilter "s1" none none (some "cs"))) :=
  getCourses_filter_semantics studentCred none none (some "cs")
    [courseEx] _ rfl

/-- C10: the update route applies `Object.assign(course, req.body)` with
no whitelist — an authorized owner's update returns and stores exactly
the body-overwritten document, and a body carrying `owner` or
`enrolledUsers` rewrites the course's owner reference or its enrollment
set too. -/
theorem update_no_whitelist (cred : Credential) (db : List Course)
    (cid : Oid) (c : Course) (body : UpdateBody)
    (hrole : cred.role = "teacher")
    (hfind : findById db cid = some c)
    (hown : c.owner = cred.subjectId) :
    updateCourseRoute (.valid cred) db cid body
      = (.ok (objectAssign c body), saveCourse db (objectAssign c body)) ∧
    (∀ v, body.owner = some v → (objectAssign c body).owner = v) ∧
    (∀ l, body.enrolledUsers = some l →
      (objectAssign c body).enrolledUsers = l) := by
  refine ⟨?_, ?_, ?_⟩
  · simp [updateCourseRoute, authenticateToken, authorizeTeachersOnly,
      hrole, hfind, hown]
  · intro v hv
    simp [objectAssign, hv]
  · intro l hl
    simp [objectAssign, hl]

/-- C10 witness: the owner "t1" updates course "c1" with a body that
rewrites the owner reference to "t2" and the enrollment set to ["s9"]. -/
theorem update_no_whitelist_spot :
    updateCourseRoute (.valid teacherCred) [courseEx] "c1"
        { owner := some "t2", enrolledUsers := some ["s9"] }
      = (.ok (objectAssign courseEx
            { owner := some "t2", enrolledUsers := some ["s9"] }),
         saveCourse [courseEx] (objectAssign courseEx
            { owner := some "t2", enrolledUsers := some ["s9"] })) ∧
    (objectAssign courseEx
        { owner := some "t2", enrolledUsers := some ["s9"] }).owner
      = "t2" ∧
    (objectAssign courseEx
        { owner := some "t2", enrolledUsers := some ["s9"] }).enrolledUsers
      = ["s9"] :=
  have h := update_no_whitelist teacherCred [courseEx] "c1" courseEx
    { owner := some "t2", enrolledUsers := some ["s9"] }
    rfl (by simp [findById, courseEx]) rfl
  ⟨h.1, h.2.1 "t2" rfl, h.2.2 ["s9"] rfl⟩

end CourseManager
